import Mathlib

/-!
Verification of the ZOOL412_Autostations resource-accounting engine.

This file gives a shallow embedding of the inventory state machine from
`db/admin_actions.py`, `db/user_actions.py` and `db/user_experiments.py`,
together with theorems about the engine's resource checks, deductions,
pending-effect maturation and weekly advancement.

Modelling conventions:
- Python numbers (ints and floats) are modelled as exact rationals `ℚ`;
  every arithmetic operation the engine performs (sums, differences,
  products with 1.8 / 0.3 / 0.8, divisions by 30, `min`, comparisons,
  `math.ceil`, `round`, `int`) is exact on the concrete values involved.
- `random.randint` / `random.gauss` draws are injected as parameters,
  matching the spec's requirement that randomness be substitutable.
- SQLAlchemy sessions, the user table, the item catalog and the
  interactive confirmation prompt are external collaborators; the catalog
  price and the prompt answer are passed in as parameters.
- `getattr`/`setattr` string-based field access is modelled by
  `Inventory.get?` / `Inventory.set` over the field names of the
  `Inventory` table; a Python `setattr` with a name that is not an
  inventory column creates a shadow attribute that is not a ledger field,
  which is modelled as leaving the ledger record unchanged.
- Functions that can raise return `Except String`; a `.error` value is a
  raised Python exception.  Operations that print a message and `return`
  without booking are modelled as `Option`-valued results (`none` means
  the operation declined and left the ledger untouched).
-/

/-- Python `int(x)` applied to a float/rational: truncation toward zero. -/
def pyTrunc (q : ℚ) : ℤ :=
  if q < 0 then ⌈q⌉ else ⌊q⌋

/-- Python 3 `round(x)` to an integer: round-half-to-even. -/
def pyRound (q : ℚ) : ℤ :=
  let f := ⌊q⌋
  let r := q - f
  if r < 1/2 then f
  else if 1/2 < r then f + 1
  else if f % 2 = 0 then f else f + 1

/-- Replace every (non-overlapping, leftmost-first) occurrence of `pat`
inside a character list, as Python `str.replace` does.  The `Nat` fuel is
always instantiated with the length of the subject string, which suffices
for full traversal. -/
def substAux : Nat → List Char → List Char → List Char → List Char
  | 0, s, _, _ => s
  | Nat.succ n, s, pat, rep =>
    match s with
    | [] => []
    | c :: rest =>
      if s.take pat.length = pat ∧ 0 < pat.length then
        rep ++ substAux n (s.drop pat.length) pat rep
      else c :: substAux n rest pat rep

/-- Python `s.replace(pat, rep)` for a non-empty pattern. -/
def pyReplace (s pat rep : String) : String :=
  String.mk (substAux s.length s.toList pat.toList rep.toList)

/-- The singleton `inventory` row (`db/models/inventory.py`): credits,
per-TA shifts / shift ceilings / death risk, juice boosters, per-species
animal availability and ceilings, and the eight cartridge counts. -/
structure Inventory where
  credits : ℚ
  ta_saltos_shifts : ℚ
  ta_nitro_shifts : ℚ
  ta_helene_shifts : ℚ
  ta_carnival_shifts : ℚ
  ta_saltos_shifts_max : ℚ
  ta_nitro_shifts_max : ℚ
  ta_helene_shifts_max : ℚ
  ta_carnival_shifts_max : ℚ
  ta_saltos_risk : ℚ
  ta_nitro_risk : ℚ
  ta_helene_risk : ℚ
  ta_carnival_risk : ℚ
  juice : ℚ
  animals_51u6_max : ℚ
  animals_51u6_m_max : ℚ
  animals_c248_s_max : ℚ
  animals_c248_b_max : ℚ
  animals_51u6_available : ℚ
  animals_51u6_m_available : ℚ
  animals_c248_s_available : ℚ
  animals_c248_b_available : ℚ
  xatty_cartridge : ℚ
  zeropoint_cartridge : ℚ
  nc_pk1_cartridge : ℚ
  smart_filament_s_cartridge : ℚ
  smart_filament_m_cartridge : ℚ
  smart_filament_l_cartridge : ℚ
  mamr_reel_cartrdige : ℚ
  dupont_cartridge : ℚ

/-- Python `getattr(inventory, f)` on the ledger columns; `none` models a
missing attribute (`hasattr` false / `AttributeError`). -/
def Inventory.get? (inv : Inventory) (f : String) : Option ℚ :=
  if f = "credits" then some inv.credits
  else if f = "ta_saltos_shifts" then some inv.ta_saltos_shifts
  else if f = "ta_nitro_shifts" then some inv.ta_nitro_shifts
  else if f = "ta_helene_shifts" then some inv.ta_helene_shifts
  else if f = "ta_carnival_shifts" then some inv.ta_carnival_shifts
  else if f = "ta_saltos_shifts_max" then some inv.ta_saltos_shifts_max
  else if f = "ta_nitro_shifts_max" then some inv.ta_nitro_shifts_max
  else if f = "ta_helene_shifts_max" then some inv.ta_helene_shifts_max
  else if f = "ta_carnival_shifts_max" then some inv.ta_carnival_shifts_max
  else if f = "ta_saltos_risk" then some inv.ta_saltos_risk
  else if f = "ta_nitro_risk" then some inv.ta_nitro_risk
  else if f = "ta_helene_risk" then some inv.ta_helene_risk
  else if f = "ta_carnival_risk" then some inv.ta_carnival_risk
  else if f = "juice" then some inv.juice
  else if f = "animals_51u6_max" then some inv.animals_51u6_max
  else if f = "animals_51u6_m_max" then some inv.animals_51u6_m_max
  else if f = "animals_c248_s_max" then some inv.animals_c248_s_max
  else if f = "animals_c248_b_max" then some inv.animals_c248_b_max
  else if f = "animals_51u6_available" then some inv.animals_51u6_available
  else if f = "animals_51u6_m_available" then some inv.animals_51u6_m_available
  else if f = "animals_c248_s_available" then some inv.animals_c248_s_available
  else if f = "animals_c248_b_available" then some inv.animals_c248_b_available
  else if f = "xatty_cartridge" then some inv.xatty_cartridge
  else if f = "zeropoint_cartridge" then some inv.zeropoint_cartridge
  else if f = "nc_pk1_cartridge" then some inv.nc_pk1_cartridge
  else if f = "smart_filament_s_cartridge" then some inv.smart_filament_s_cartridge
  else if f = "smart_filament_m_cartridge" then some inv.smart_filament_m_cartridge
  else if f = "smart_filament_l_cartridge" then some inv.smart_filament_l_cartridge
  else if f = "mamr_reel_cartrdige" then some inv.mamr_reel_cartrdige
  else if f = "dupont_cartridge" then some inv.dupont_cartridge
  else none

/-- Python `setattr(inventory, f, v)` on the ledger columns.  A name that
is not a ledger column only creates a shadow attribute on the Python
object, so the ledger record itself is unchanged. -/
def Inventory.set (inv : Inventory) (f : String) (v : ℚ) : Inventory :=
  if f = "credits" then { inv with credits := v }
  else if f = "ta_saltos_shifts" then { inv with ta_saltos_shifts := v }
  else if f = "ta_nitro_shifts" then { inv with ta_nitro_shifts := v }
  else if f = "ta_helene_shifts" then { inv with ta_helene_shifts := v }
  else if f = "ta_carnival_shifts" then { inv with ta_carnival_shifts := v }
  else if f = "ta_saltos_shifts_max" then { inv with ta_saltos_shifts_max := v }
  else if f = "ta_nitro_shifts_max" then { inv with ta_nitro_shifts_max := v }
  else if f = "ta_helene_shifts_max" then { inv with ta_helene_shifts_max := v }
  else if f = "ta_carnival_shifts_max" then { inv with ta_carnival_shifts_max := v }
  else if f = "ta_saltos_risk" then { inv with ta_saltos_risk := v }
  else if f = "ta_nitro_risk" then { inv with ta_nitro_risk := v }
  else if f = "ta_helene_risk" then { inv with ta_helene_risk := v }
  else if f = "ta_carnival_risk" then { inv with ta_carnival_risk := v }
  else if f = "juice" then { inv with juice := v }
  else if f = "animals_51u6_max" then { inv with animals_51u6_max := v }
  else if f = "animals_51u6_m_max" then { inv with animals_51u6_m_max := v }
  else if f = "animals_c248_s_max" then { inv with animals_c248_s_max := v }
  else if f = "animals_c248_b_max" then { inv with animals_c248_b_max := v }
  else if f = "animals_51u6_available" then { inv with animals_51u6_available := v }
  else if f = "animals_51u6_m_available" then { inv with animals_51u6_m_available := v }
  else if f = "animals_c248_s_available" then { inv with animals_c248_s_available := v }
  else if f = "animals_c248_b_available" then { inv with animals_c248_b_available := v }
  else if f = "xatty_cartridge" then { inv with xatty_cartridge := v }
  else if f = "zeropoint_cartridge" then { inv with zeropoint_cartridge := v }
  else if f = "nc_pk1_cartridge" then { inv with nc_pk1_cartridge := v }
  else if f = "smart_filament_s_cartridge" then { inv with smart_filament_s_cartridge := v }
  else if f = "smart_filament_m_cartridge" then { inv with smart_filament_m_cartridge := v }
  else if f = "smart_filament_l_cartridge" then { inv with smart_filament_l_cartridge := v }
  else if f = "mamr_reel_cartrdige" then { inv with mamr_reel_cartrdige := v }
  else if f = "dupont_cartridge" then { inv with dupont_cartridge := v }
  else inv

/-- The fixed TA role order used by every greedy shift deduction. -/
def ta_fields : List String :=
  ["ta_saltos_shifts", "ta_nitro_shifts", "ta_helene_shifts", "ta_carnival_shifts"]

/-- The per-species availability fields written by hunt deliveries. -/
def animal_available_fields : List String :=
  ["animals_51u6_available", "animals_51u6_m_available",
   "animals_c248_s_available", "animals_c248_b_available"]

/-- The values of `ArticleEnum` (`db/models/order.py`): the only article
keys a plain (non-effect) order can carry. -/
def article_values : List String :=
  ["xatty_cartridge", "zeropoint_cartridge", "nc_pk1_cartridge",
   "smart_filament_s_cartridge", "smart_filament_m_cartridge",
   "smart_filament_l_cartridge", "mamr_reel_cartrdige", "dupont_cartridge",
   "juice"]

/-- The values of `AnimalSpecies` (`db/models/hunting.py`). -/
def species_values : List String :=
  ["animals_51u6", "animals_51u6_m", "animals_c248_s", "animals_c248_b"]

/-- Total TA shifts across the four roles, as summed by
`check_ta_shifts_required` and `collect_animals`. -/
def shiftSum (inv : Inventory) : ℚ :=
  inv.ta_saltos_shifts + inv.ta_nitro_shifts + inv.ta_helene_shifts +
    inv.ta_carnival_shifts

/-- A row of the `orders` table (`db/models/order.py`): a Pending Effect.
The `date`/`time` columns are wall-clock metadata with no effect on the
engine and are omitted. -/
structure Order where
  user_id : ℤ
  article : String
  value : ℚ
  wait_weeks : ℤ
  is_effect : Bool
  inventory_field : Option String
  event_type : Option String

/-- The starting inventory created by `AdminActions.initialize_inventory`. -/
def initialize_inventory : Inventory :=
  { credits := 2000000
    ta_saltos_shifts := 30
    ta_nitro_shifts := 30
    ta_helene_shifts := 30
    ta_carnival_shifts := 30
    ta_saltos_shifts_max := 30
    ta_nitro_shifts_max := 30
    ta_helene_shifts_max := 30
    ta_carnival_shifts_max := 30
    ta_saltos_risk := 0
    ta_nitro_risk := 0
    ta_helene_risk := 0
    ta_carnival_risk := 0
    juice := 3
    animals_51u6_max := 40
    animals_51u6_m_max := -1
    animals_c248_s_max := -1
    animals_c248_b_max := -1
    animals_51u6_available := 40
    animals_51u6_m_available := -1
    animals_c248_s_available := -1
    animals_c248_b_available := -1
    xatty_cartridge := 1
    zeropoint_cartridge := 1
    nc_pk1_cartridge := 1
    smart_filament_s_cartridge := 1
    smart_filament_m_cartridge := 1
    smart_filament_l_cartridge := 1
    mamr_reel_cartrdige := 1
    dupont_cartridge := 1 }

/-- STEP 1 and STEP 2 of `AdminActions.advance_one_week`: reset every TA
role's shifts to the fixed baseline 30 and every species' availability to
its current max. -/
def resetRenewables (inv : Inventory) : Inventory :=
  { inv with
    ta_saltos_shifts := 30
    ta_nitro_shifts := 30
    ta_helene_shifts := 30
    ta_carnival_shifts := 30
    animals_51u6_available := inv.animals_51u6_max
    animals_51u6_m_available := inv.animals_51u6_m_max
    animals_c248_s_available := inv.animals_c248_s_max
    animals_c248_b_available := inv.animals_c248_b_max }

/-- STEP 4 and STEP 5 of `AdminActions.advance_one_week`: overwrite each
TA ceiling with its current shifts and each species max with its current
availability. -/
def rederiveCeilings (inv : Inventory) : Inventory :=
  { inv with
    ta_saltos_shifts_max := inv.ta_saltos_shifts
    ta_nitro_shifts_max := inv.ta_nitro_shifts
    ta_helene_shifts_max := inv.ta_helene_shifts
    ta_carnival_shifts_max := inv.ta_carnival_shifts
    animals_51u6_max := inv.animals_51u6_available
    animals_51u6_m_max := inv.animals_51u6_m_available
    animals_c248_s_max := inv.animals_c248_s_available
    animals_c248_b_max := inv.animals_c248_b_available }

/-- `AdminActions._apply_order_effect`: a completed acquisition adds a
fixed +1 to the inventory field named by the order's article; an unknown
field only prints a warning. -/
def apply_order_effect (o : Order) (inv : Inventory) : Inventory :=
  match inv.get? o.article with
  | some current => inv.set o.article (current + 1)
  | none => inv

/-- `AdminActions._handle_juiz_event`: post-boost fatigue.  A falsy or
unknown target field is dropped with a warning; otherwise the target is
rewritten to `round(shifts_max * 0.3)`, where the max field is obtained by
`field.replace("_shifts", "_shifts_max")` and read with default 30. -/
def handle_juiz_event (o : Order) (inv : Inventory) : Inventory :=
  match o.inventory_field with
  | none => inv
  | some field =>
    if (inv.get? field).isSome then
      let max_field := pyReplace field "_shifts" "_shifts_max"
      let current_max := (inv.get? max_field).getD 30
      inv.set field (pyRound (current_max * (3/10)))
    else inv

/-- `AdminActions._handle_hunting_event`: adds `int(order.value)` to the
target field, read with `getattr(..., 0)`.  A `None` target makes
`getattr(inventory, None, 0)` raise `TypeError` (there is no guard). -/
def handle_hunting_event (o : Order) (inv : Inventory) : Except String Inventory :=
  match o.inventory_field with
  | none => .error "TypeError: attribute name must be string"
  | some field =>
    .ok (inv.set field ((inv.get? field).getD 0 + (pyTrunc o.value : ℚ)))

/-- `AdminActions._apply_event_effect`: dispatch on `event_type`; an
unknown event type is dropped with a warning. -/
def apply_event_effect (o : Order) (inv : Inventory) : Except String Inventory :=
  if o.event_type = some "juiz" then .ok (handle_juiz_event o inv)
  else if o.event_type = some "hunt" then handle_hunting_event o inv
  else .ok inv

/-- The per-order part of STEP 3 of `advance_one_week`: the query filter
`wait_weeks >= 0` followed by the decrement. -/
def tickOrder (o : Order) : Order :=
  if 0 ≤ o.wait_weeks then { o with wait_weeks := o.wait_weeks - 1 } else o

/-- STEP 3 of `advance_one_week` for a single order: decrement the wait
of every order with `wait_weeks >= 0` and dispatch it if the decremented
wait is exactly 0. -/
def matureStep (inv : Inventory) (o : Order) : Except String (Inventory × Order) :=
  if 0 ≤ o.wait_weeks then
    let o' := tickOrder o
    if o'.wait_weeks = 0 then
      if o'.is_effect then (apply_event_effect o' inv).map (fun i => (i, o'))
      else .ok (apply_order_effect o' inv, o')
    else .ok (inv, o')
  else .ok (inv, o)

/-- STEP 3 of `advance_one_week` over the whole queue, in queue order,
threading the inventory.  A raised exception propagates (the loop has no
handler), leaving the remaining orders unprocessed. -/
def matureAll (inv : Inventory) : List Order → Except String (Inventory × List Order)
  | [] => .ok (inv, [])
  | o :: rest =>
    match matureStep inv o with
    | .error e => .error e
    | .ok (inv', o') =>
      match matureAll inv' rest with
      | .error e => .error e
      | .ok (inv'', rest') => .ok (inv'', o' :: rest')

/-- `AdminActions.advance_one_week` on the singleton inventory and the
order queue: renewable reset, maturation pass, ceiling re-derivation. -/
def advance_one_week (inv : Inventory) (orders : List Order) :
    Except String (Inventory × List Order) :=
  match matureAll (resetRenewables inv) orders with
  | .error e => .error e
  | .ok (inv', orders') => .ok (rederiveCeilings inv', orders')

/-- The acquisition tiers (`db/models/acquisition.py`). -/
inductive AcquisitionType where
  | quick
  | standard
  | smart

/-- `ACQUISITION_RULES` (`db/user_actions.py`): cooldown in weeks and
price factor per tier. -/
def ACQUISITION_RULES : AcquisitionType → ℤ × ℚ
  | .quick => (1, 2)
  | .standard => (2, 1)
  | .smart => (3, 4/5)

/-- `UserActions.place_order`.  The catalog price for the article is the
`price` argument (catalog lookup is an external read-only collaborator);
the user lookup is likewise external.  Returns the updated inventory and
the single created order. -/
def place_order (inv : Inventory) (user_id : ℤ) (article : String)
    (price : ℚ) (acquisition_type : AcquisitionType) :
    Except String (Inventory × Order) :=
  let rules := ACQUISITION_RULES acquisition_type
  let cost := price * rules.2
  let wait_weeks := rules.1
  if inv.credits < cost then .error "Insufficient credits"
  else
    .ok ({ inv with credits := inv.credits - cost },
      { user_id := user_id, article := article, value := cost,
        wait_weeks := wait_weeks, is_effect := false,
        inventory_field := none, event_type := none })

/-- The survival condition of `UserActions.administer_juiz` STEP 4:
`current_risk == 0.0 or dice > current_risk`. -/
abbrev juiz_success (current_risk : ℚ) (dice : ℤ) : Prop :=
  current_risk = 0 ∨ current_risk < (dice : ℚ)

/-- `UserActions.administer_juiz` with the 100-sided roll injected.
Checks juice, reads the role's shifts/max/risk fields (raising
`AttributeError` on an invalid role field), checks `0 < max <= 30`,
applies the boost or the fatality, always deducts one juice and logs the
aftermath order with `wait_weeks = 1`. -/
def administer_juiz (inv : Inventory) (ta_field : String) (user_id : ℤ)
    (dice : ℤ) : Except String (Inventory × Order) :=
  if inv.juice < 1 then .error "No Juice available in inventory."
  else
    let max_field := pyReplace ta_field "_shifts" "_shifts_max"
    let risk_field := pyReplace ta_field "_shifts" "_risk"
    match inv.get? ta_field, inv.get? max_field, inv.get? risk_field with
    | some current_shifts, some current_max, some _ =>
      if ¬(0 < current_max ∧ current_max ≤ 30) then
        .error "TA cannot be juiced."
      else
        let current_risk := (inv.get? risk_field).getD 0
        let inv1 :=
          if juiz_success current_risk dice then
            let new_max : ℚ := (pyRound (current_max * (9/5)) : ℤ)
            let offset := new_max - current_max
            ((inv.set max_field new_max).set ta_field
                (current_shifts + offset)).set risk_field
              (min (current_risk + 10) 100)
          else
            (inv.set max_field 0).set ta_field 0
        let inv2 := { inv1 with juice := inv1.juice - 1 }
        .ok (inv2,
          { user_id := user_id, article := "JUICE", value := 0,
            wait_weeks := 1, is_effect := true,
            inventory_field := some ta_field, event_type := some "juiz" })
    | _, _, _ => .error "AttributeError"

/-- The animal species (`db/models/hunting.py`), with their inventory
field prefixes. -/
inductive AnimalSpecies where
  | u51
  | u51_m
  | c248_s
  | c248_b

/-- The `.value` string of an `AnimalSpecies` member. -/
def AnimalSpecies.value : AnimalSpecies → String
  | .u51 => "animals_51u6"
  | .u51_m => "animals_51u6_m"
  | .c248_s => "animals_c248_s"
  | .c248_b => "animals_c248_b"

/-- `HUNTING_RULES` (`db/user_actions.py`): cooldown in weeks per species. -/
def hunting_cooldown : AnimalSpecies → ℤ
  | .u51 => 0
  | .u51_m => 1
  | .c248_s => 1
  | .c248_b => 0

/-- The greedy 12-shift deduction loop of `UserActions.collect_animals`:
each role absorbs `min(current, remaining)`, and the loop breaks as soon
as the remainder is exactly 0. -/
def collectDeductLoop (inv : Inventory) (remaining : ℚ) :
    List String → Inventory × ℚ
  | [] => (inv, remaining)
  | f :: rest =>
    let current := (inv.get? f).getD 0
    let used := min current remaining
    let inv' := inv.set f (current - used)
    let remaining' := remaining - used
    if remaining' = 0 then (inv', remaining')
    else collectDeductLoop inv' remaining' rest

/-- `UserActions.collect_animals` with the sampled yield injected as
`amount` (the post-clamp result of the species' gaussian / colony /
uniform draw).  Returns the updated inventory and the scheduled delivery
order, if one was created; the unchanged inventory is returned when the
total-shift precondition fails. -/
def collect_animals (inv : Inventory) (user_id : ℤ) (species : AnimalSpecies)
    (amount : ℤ) : Inventory × Option Order :=
  if shiftSum inv < 12 then (inv, none)
  else
    let inv1 := (collectDeductLoop inv 12 ta_fields).1
    let cooldown := hunting_cooldown species
    if amount = 0 then (inv1, none)
    else if cooldown = 0 then
      let avail_field := species.value ++ "_available"
      let max_field := species.value ++ "_max"
      let current_count := (inv1.get? avail_field).getD 0
      let current_max := (inv1.get? max_field).getD 0
      ((inv1.set avail_field (current_count + amount)).set max_field
        (current_max + amount), none)
    else
      (inv1, some
        { user_id := user_id, article := species.value, value := amount,
          wait_weeks := cooldown, is_effect := true,
          inventory_field := some (species.value ++ "_available"),
          event_type := some "hunt" })

/-- `UserExperiments.check_ta_shifts_required`: total shifts across the
four roles is at least `required`. -/
def check_ta_shifts_required (inv : Inventory) (required : ℚ) : Prop :=
  required ≤ shiftSum inv

instance (inv : Inventory) (required : ℚ) :
    Decidable (check_ta_shifts_required inv required) := by
  unfold check_ta_shifts_required
  infer_instance

/-- The greedy deduction loop of `UserExperiments.deduct_ta_shifts`:
identical to the hunting loop except that it breaks on `remaining <= 0`
rather than `remaining == 0`. -/
def deductLoop (inv : Inventory) (remaining : ℚ) :
    List String → Inventory × ℚ
  | [] => (inv, remaining)
  | f :: rest =>
    let available := (inv.get? f).getD 0
    let used := min available remaining
    let inv' := inv.set f (available - used)
    let remaining' := remaining - used
    if remaining' ≤ 0 then (inv', remaining')
    else deductLoop inv' remaining' rest

/-- `UserExperiments.deduct_ta_shifts`. -/
def deduct_ta_shifts (inv : Inventory) (required : ℚ) : Inventory :=
  (deductLoop inv required ta_fields).1

/-- `UserExperiments.check_animal_required`: each animal provides 30
shifts (1.0 FTE); the check converts required shifts into FTEs and
compares with the species' availability (false when the species field
does not exist). -/
def check_animal_required (inv : Inventory) (species : String)
    (shifts_required : ℚ) : Prop :=
  match inv.get? (species ++ "_available") with
  | none => False
  | some available => shifts_required / 30 ≤ available

/-- `UserExperiments.deduct_animals`: subtract `shifts_required / 30`
FTEs from the species' availability, raising `ValueError` on an invalid
species field. -/
def deduct_animals (inv : Inventory) (species : String)
    (shifts_required : ℚ) : Except String Inventory :=
  let field := species ++ "_available"
  match inv.get? field with
  | none => .error "ValueError: invalid species field"
  | some current => .ok (inv.set field (current - shifts_required / 30))

/-- `UserExperiments.calculate_ocs_cost`.  The source first computes
`jobs = ceil(unit_count / units_per_job)` and then evaluates
`ArticleEnum.KPI_OCS_JOB.value`; `ArticleEnum` (db/models/order.py) has
no member `KPI_OCS_JOB` and nothing in the repository adds one, so the
attribute access raises `AttributeError` unconditionally.  The catalog
query, the `RuntimeError` guard and the `(jobs, jobs * int(price))`
return are dead code. -/
def calculate_ocs_cost (unit_count : ℚ) (units_per_job : ℚ) :
    Except String (ℤ × ℤ) :=
  let _jobs : ℤ := ⌈unit_count / units_per_job⌉
  .error "AttributeError: type object ArticleEnum has no attribute KPI_OCS_JOB"

/-- The DGE booking's TA-shift requirement: `ceil(total_samples / 5)`. -/
def dgeShiftsRequired (group_counts : List ℤ) : ℤ :=
  ⌈(group_counts.sum : ℚ) / 5⌉

/-- The DGE booking's animal-shift burden:
`shifts_required * total_samples`. -/
def dgeAnimalShifts (group_counts : List ℤ) : ℤ :=
  dgeShiftsRequired group_counts * group_counts.sum

/-- The DGE booking's OCS unit count. -/
def dgeOcsUnits (group_counts : List ℤ) (max_sequences : ℤ) : ℤ :=
  if 0 < max_sequences then group_counts.sum * max_sequences
  else group_counts.sum * 1000

/-- `UserExperiments.run_geneweaver_dge_analysis`, resource-accounting
core.  `group_counts` are the per-group subject counts, `confirm` is the
answer to the booking prompt.  Returns `.ok none` when a failed check
aborts the booking with no mutation.  After the cartridge and TA-shift
checks the source calls `calculate_ocs_cost`, which always raises
`AttributeError`, so the credits check, the prompt, and every deduction
are dead code; they are modeled faithfully inside the `.ok` arm of the
match, which is never taken. -/
def run_geneweaver_dge_analysis (inv : Inventory) (species : String)
    (group_counts : List ℤ) (max_sequences : ℤ) (confirm : Bool) :
    Except String (Option Inventory) :=
  if inv.xatty_cartridge < 1 then .ok none
  else if ¬check_ta_shifts_required inv (dgeShiftsRequired group_counts : ℚ)
    then .ok none
  else
    match calculate_ocs_cost (dgeOcsUnits group_counts max_sequences : ℚ)
        100 with
    | .error e => .error e
    | .ok jc =>
      let ocs_cost : ℤ := jc.2
      if inv.credits < (ocs_cost : ℚ) then .ok none
      else if ¬confirm then .ok none
      else
        let inv1 := { inv with xatty_cartridge := inv.xatty_cartridge - 1 }
        let inv2 := deduct_ta_shifts inv1 (dgeShiftsRequired group_counts : ℚ)
        match deduct_animals inv2 species (dgeAnimalShifts group_counts : ℚ)
          with
        | .error e => .error e
        | .ok inv3 =>
          .ok (some { inv3 with credits := inv3.credits - (ocs_cost : ℚ) })

/-- The `{"S": 1, "M": 2, "L": 3}[size_tier]` lookup of
`run_polykiln_fabrication`; a missing key raises `KeyError`. -/
def sizePoints (size_tier : String) : Option ℤ :=
  if size_tier = "S" then some 1
  else if size_tier = "M" then some 2
  else if size_tier = "L" then some 3
  else none

/-- Python list indexing `[0, 1, 2, 3][i]` with negative-index wrap, as
used for `tier_shifts`; out of range raises `IndexError`. -/
def tierShifts (i : ℤ) : Option ℤ :=
  if 0 ≤ i ∧ i ≤ 3 then some i
  else if -4 ≤ i ∧ i < 0 then some (4 + i)
  else none

/-- Python list indexing `[0, 1, 4, 9][i]` with negative-index wrap, as
used for `tier_costs`. -/
def tierCosts (i : ℤ) : Option ℤ :=
  let table : List ℤ := [0, 1, 4, 9]
  if 0 ≤ i ∧ i ≤ 3 then table.get? i.toNat
  else if -4 ≤ i ∧ i < 0 then table.get? (4 + i).toNat
  else none

/-- `UserExperiments.run_polykiln_fabrication`, resource-accounting core.
The source computes the OCS cost via `calculate_ocs_cost` (which always
raises `AttributeError`) BEFORE any validation, so every check and every
deduction is dead code, modeled faithfully inside the never-taken `.ok`
arm.  (In that dead code the TA-shift check uses only the filament
`shift_cost` (1, 3, or 5) even though the deduction removes
`shifts_required = shift_cost + tier_shifts[mech] + tier_shifts[elec]`,
and no animal accounting is done.) -/
def run_polykiln_fabrication (inv : Inventory) (size_tier : String)
    (mech_tier elec_tier : ℤ) (confirm : Bool) :
    Except String (Option Inventory) :=
  match sizePoints size_tier with
  | none => .error "KeyError"
  | some size_points =>
    let score := size_points * 2 + mech_tier + elec_tier
    let cartridge_field : String :=
      if score ≤ 4 then "smart_filament_s_cartridge"
      else if score ≤ 8 then "smart_filament_m_cartridge"
      else "smart_filament_l_cartridge"
    let shift_cost : ℤ := if score ≤ 4 then 1 else if score ≤ 8 then 3 else 5
    match tierShifts mech_tier, tierShifts elec_tier,
        tierCosts mech_tier, tierCosts elec_tier with
    | some tsm, some tse, some tcm, some tce =>
      let shifts_required : ℤ := shift_cost + tsm + tse
      let ocs_level : ℤ := 5 + tcm + tce
      match calculate_ocs_cost (ocs_level : ℚ) 10 with
      | .error e => .error e
      | .ok jc =>
        let ocs_cost : ℤ := jc.2
        if (inv.get? cartridge_field).getD 0 < 1 then .ok none
        else if ¬check_ta_shifts_required inv (shift_cost : ℚ) then .ok none
        else if inv.credits < (ocs_cost : ℚ) then .ok none
        else if ¬confirm then .ok none
        else
          let inv1 := inv.set cartridge_field
            ((inv.get? cartridge_field).getD 0 - 1)
          let inv2 := deduct_ta_shifts inv1 (shifts_required : ℚ)
          .ok (some { inv2 with credits := inv2.credits - (ocs_cost : ℚ) })
    | _, _, _, _ => .error "IndexError"

/-- Agreement of two inventory states on everything except the four TA
shift fields. -/
def offShiftAgree (a b : Inventory) : Prop :=
  b.credits = a.credits ∧
  b.ta_saltos_shifts_max = a.ta_saltos_shifts_max ∧
  b.ta_nitro_shifts_max = a.ta_nitro_shifts_max ∧
  b.ta_helene_shifts_max = a.ta_helene_shifts_max ∧
  b.ta_carnival_shifts_max = a.ta_carnival_shifts_max ∧
  b.ta_saltos_risk = a.ta_saltos_risk ∧
  b.ta_nitro_risk = a.ta_nitro_risk ∧
  b.ta_helene_risk = a.ta_helene_risk ∧
  b.ta_carnival_risk = a.ta_carnival_risk ∧
  b.juice = a.juice ∧
  b.animals_51u6_max = a.animals_51u6_max ∧
  b.animals_51u6_m_max = a.animals_51u6_m_max ∧
  b.animals_c248_s_max = a.animals_c248_s_max ∧
  b.animals_c248_b_max = a.animals_c248_b_max ∧
  b.animals_51u6_available = a.animals_51u6_available ∧
  b.animals_51u6_m_available = a.animals_51u6_m_available ∧
  b.animals_c248_s_available = a.animals_c248_s_available ∧
  b.animals_c248_b_available = a.animals_c248_b_available ∧
  b.xatty_cartridge = a.xatty_cartridge ∧
  b.zeropoint_cartridge = a.zeropoint_cartridge ∧
  b.nc_pk1_cartridge = a.nc_pk1_cartridge ∧
  b.smart_filament_s_cartridge = a.smart_filament_s_cartridge ∧
  b.smart_filament_m_cartridge = a.smart_filament_m_cartridge ∧
  b.smart_filament_l_cartridge = a.smart_filament_l_cartridge ∧
  b.mamr_reel_cartrdige = a.mamr_reel_cartrdige ∧
  b.dupont_cartridge = a.dupont_cartridge

/-- Agreement of two inventory states on credits and on the four TA risk
fields. -/
def creditsRiskAgree (a b : Inventory) : Prop :=
  b.credits = a.credits ∧
  b.ta_saltos_risk = a.ta_saltos_risk ∧
  b.ta_nitro_risk = a.ta_nitro_risk ∧
  b.ta_helene_risk = a.ta_helene_risk ∧
  b.ta_carnival_risk = a.ta_carnival_risk

/-- A queue entry of the shape the engine itself produces: plain
deliveries carry an `ArticleEnum` article; juiz events target a TA shift
field; hunt events target a species availability field. -/
def systemOrder (o : Order) : Prop :=
  if o.is_effect then
    (o.event_type = some "juiz" ∧
      ∃ f ∈ ta_fields, o.inventory_field = some f) ∨
    (o.event_type = some "hunt" ∧
      ∃ f ∈ animal_available_fields, o.inventory_field = some f)
  else o.article ∈ article_values

/-- Scenario C start state: the scenario-B ledger, where a successful
boost left saltos at 54 shifts / 54 max / 10 risk and 2 juice. -/
def scenC_inv : Inventory :=
  { initialize_inventory with
    ta_saltos_shifts := 54
    ta_saltos_shifts_max := 54
    ta_saltos_risk := 10
    juice := 2 }

/-- Scenario C queue: the single boost-aftermath Pending Effect logged by
the scenario-B boost, with one week left. -/
def scenC_order : Order :=
  { user_id := 1, article := "JUICE", value := 0, wait_weeks := 1,
    is_effect := true, inventory_field := some "ta_saltos_shifts",
    event_type := some "juiz" }

/-- A hunt-delivery Pending Effect whose target field is NULL. -/
def huntNoTarget : Order :=
  { user_id := 1, article := "animals_51u6_m", value := 7, wait_weeks := 1,
    is_effect := true, inventory_field := none, event_type := some "hunt" }

/-- A crafted hunt-delivery Pending Effect targeting the credits column. -/
def huntCreditsOrder : Order :=
  { user_id := 1, article := "animals_51u6_m", value := 5, wait_weeks := 1,
    is_effect := true, inventory_field := some "credits",
    event_type := some "hunt" }

/-- The fresh ledger with saltos carrying 10% accumulated risk. -/
def riskyInv : Inventory :=
  { initialize_inventory with ta_saltos_risk := 10 }

/-- The ledger after the fatality outcome of boosting saltos on
`riskyInv` with roll 5: shifts and max zeroed, juice decremented, risk
untouched. -/
def juizFatalInv : Inventory :=
  { riskyInv with
    ta_saltos_shifts := 0
    ta_saltos_shifts_max := 0
    juice := 2 }

/-- The aftermath order logged by that boost. -/
def juizFatalOrder : Order :=
  { user_id := 1, article := "JUICE", value := 0, wait_weeks := 1,
    is_effect := true, inventory_field := some "ta_saltos_shifts",
    event_type := some "juiz" }

/-- A Pending Effect with an event type no handler knows. -/
def unknownEventOrder : Order :=
  { user_id := 1, article := "juice", value := 1, wait_weeks := 1,
    is_effect := true, inventory_field := some "ta_saltos_shifts",
    event_type := some "mystery" }

/-- Spec-side price multiplier table (section 4.2 of the spec): quick
2.00, standard 1.00, smart 0.80.  Stated independently of
`ACQUISITION_RULES` so that C3 compares code against spec. -/
def claim_multiplier : AcquisitionType → ℚ
  | .quick => 2
  | .standard => 1
  | .smart => 4/5

/-- Spec-side lead-time table (section 4.2 of the spec): quick 1,
standard 2, smart 3 weeks. -/
def claim_lead_time : AcquisitionType → ℤ
  | .quick => 1
  | .standard => 2
  | .smart => 3

theorem pyReplace_saltos_max :
    pyReplace "ta_saltos_shifts" "_shifts" "_shifts_max" = "ta_saltos_shifts_max" := by decide

theorem pyReplace_nitro_max :
    pyReplace "ta_nitro_shifts" "_shifts" "_shifts_max" = "ta_nitro_shifts_max" := by decide

theorem pyReplace_helene_max :
    pyReplace "ta_helene_shifts" "_shifts" "_shifts_max" = "ta_helene_shifts_max" := by decide

theorem pyReplace_carnival_max :
    pyReplace "ta_carnival_shifts" "_shifts" "_shifts_max" = "ta_carnival_shifts_max" := by decide

theorem pyReplace_saltos_risk :
    pyReplace "ta_saltos_shifts" "_shifts" "_risk" = "ta_saltos_risk" := by decide

theorem pyReplace_nitro_risk :
    pyReplace "ta_nitro_shifts" "_shifts" "_risk" = "ta_nitro_risk" := by decide

theorem pyReplace_helene_risk :
    pyReplace "ta_helene_shifts" "_shifts" "_risk" = "ta_helene_risk" := by decide

theorem pyReplace_carnival_risk :
    pyReplace "ta_carnival_shifts" "_shifts" "_risk" = "ta_carnival_risk" := by decide

/-- C8: in administer-boost, with risk 0 every roll in [1,100] takes the
success branch, and with risk 100 the success condition is unsatisfiable
because the roll cannot exceed 100 and the risk-zero disjunct fails. -/
theorem juiz_roll_boundary (dice : ℤ) (h1 : 1 ≤ dice) (h2 : dice ≤ 100) :
    juiz_success 0 dice ∧ ¬juiz_success 100 dice := by
  refine ⟨Or.inl rfl, ?_⟩
  rintro (h | h)
  · norm_num at h
  · have : (dice : ℚ) ≤ 100 := by exact_mod_cast h2
    linarith

theorem juiz_roll_boundary_witness :
    ((1:ℤ) ≤ 100 ∧ (100:ℤ) ≤ 100) ∧
      (juiz_success 0 100 ∧ ¬juiz_success 100 100) :=
  ⟨⟨by norm_num, by norm_num⟩,
    juiz_roll_boundary 100 (by norm_num) (by norm_num)⟩

/-- C3: a successful place-order deducts exactly base price times the
tier multiplier (quick 2.00, standard 1.00, smart 0.80) and creates
exactly one Pending Effect with `is_effect = false` and `wait_weeks`
equal to the tier lead time (quick 1, standard 2, smart 3). -/
theorem place_order_cost_and_lead_time (inv : Inventory) (uid : ℤ)
    (article : String) (price : ℚ) (t : AcquisitionType)
    (hcred : price * (ACQUISITION_RULES t).2 ≤ inv.credits) :
    (place_order inv uid article price t).map
        (fun p => (p.1.credits, p.2.is_effect, p.2.wait_weeks)) =
      .ok (inv.credits - price * claim_multiplier t, false, claim_lead_time t) := by
  cases t <;>
    simp only [ACQUISITION_RULES, mul_one] at hcred <;>
    simp [place_order, ACQUISITION_RULES, claim_multiplier, claim_lead_time,
      not_lt.mpr hcred, Except.map]

theorem place_order_cost_and_lead_time_witness :
    70000 * (ACQUISITION_RULES .quick).2 ≤ initialize_inventory.credits ∧
      (place_order initialize_inventory 1 "xatty_cartridge" 70000 .quick).map
          (fun p => (p.1.credits, p.2.is_effect, p.2.wait_weeks)) =
        .ok (initialize_inventory.credits - 70000 * claim_multiplier .quick,
          false, claim_lead_time .quick) :=
  ⟨by norm_num [ACQUISITION_RULES, initialize_inventory],
    place_order_cost_and_lead_time initialize_inventory 1 "xatty_cartridge"
      70000 .quick (by norm_num [ACQUISITION_RULES, initialize_inventory])⟩

/-- C5: from the scenario-B ledger (saltos at 54 max) with one
boost-aftermath effect one week out, a single weekly tick first resets
saltos' shifts to 30, the maturing aftermath then sets them to
round(54 x 0.3) = 16, and the ceiling re-derivation finally sets
`shifts_max` to 16. -/
theorem scenario_c_tick :
    (resetRenewables scenC_inv).ta_saltos_shifts = 30 ∧
    (matureAll (resetRenewables scenC_inv) [scenC_order]).map
        (fun p => p.1.ta_saltos_shifts) = .ok 16 ∧
    (advance_one_week scenC_inv [scenC_order]).map
        (fun p => (p.1.ta_saltos_shifts, p.1.ta_saltos_shifts_max)) =
      .ok (16, 16) := by
  refine ⟨rfl, ?_, ?_⟩ <;>
    simp [advance_one_week, matureAll, matureStep, tickOrder,
      apply_event_effect, handle_juiz_event, resetRenewables,
      rederiveCeilings, scenC_inv, scenC_order, initialize_inventory,
      Inventory.get?, Inventory.set, pyReplace_saltos_max, Except.map] <;>
    norm_num [pyRound]

theorem tickOrder_iterate (o : Order) (h : 0 ≤ o.wait_weeks) :
    ∀ k : ℕ, tickOrder^[k] o =
      { o with wait_weeks := max (o.wait_weeks - (k : ℤ)) (-1) } := by
  intro k
  induction k with
  | zero =>
    rw [Function.iterate_zero_apply]
    have hmax : max (o.wait_weeks - ((0:ℕ):ℤ)) (-1) = o.wait_weeks := by
      push_cast; omega
    rw [hmax]
  | succ n ih =>
    rw [Function.iterate_succ_apply', ih]
    unfold tickOrder
    rcases le_or_lt (0:ℤ) (o.wait_weeks - (n:ℤ)) with hc | hc
    · rw [if_pos (by omega : (0:ℤ) ≤ max (o.wait_weeks - (n:ℤ)) (-1))]
      simp only [Order.mk.injEq, and_true, true_and]
      push_cast
      omega
    · rw [if_neg (by omega : ¬(0:ℤ) ≤ max (o.wait_weeks - (n:ℤ)) (-1))]
      simp only [Order.mk.injEq, and_true, true_and]
      push_cast
      omega

/-- C2: maturation is exactly once.  For an order enqueued with
`wait_weeks >= 1`, across repeated weekly ticks the order's wait reaches
1 (the value at which the tick's decrement lands on 0 and dispatches the
effect) at exactly one tick index; at every other tick `matureStep`
only decrements the order and returns the inventory untouched; and at
that single index the effect is dispatched through
`apply_event_effect` / `apply_order_effect`. -/
theorem maturation_exactly_once (inv : Inventory) (o : Order)
    (hw : 1 ≤ o.wait_weeks) :
    (∀ k : ℕ, (tickOrder^[k] o).wait_weeks = 1 ↔ (k : ℤ) = o.wait_weeks - 1) ∧
    (∀ k : ℕ, (k : ℤ) ≠ o.wait_weeks - 1 →
      matureStep inv (tickOrder^[k] o) = .ok (inv, tickOrder^[k+1] o)) ∧
    (∀ k : ℕ, (k : ℤ) = o.wait_weeks - 1 →
      matureStep inv (tickOrder^[k] o) =
        (if (tickOrder^[k+1] o).is_effect = true then
            apply_event_effect (tickOrder^[k+1] o) inv
          else .ok (apply_order_effect (tickOrder^[k+1] o) inv)).map
          (fun i => (i, tickOrder^[k+1] o))) := by
  have h0 : 0 ≤ o.wait_weeks := by omega
  refine ⟨?_, ?_, ?_⟩
  · intro k
    rw [tickOrder_iterate o h0 k]
    constructor
    · intro hk
      simp only at hk
      omega
    · intro hk
      simp only
      omega
  · intro k hk
    rw [Function.iterate_succ_apply', tickOrder_iterate o h0 k]
    unfold matureStep tickOrder
    rcases le_or_lt (0:ℤ) (max (o.wait_weeks - (k:ℤ)) (-1)) with hc | hc
    · rw [if_pos hc, if_pos hc,
        if_neg (by simp only; omega : ¬({ o with wait_weeks := max (o.wait_weeks - (k:ℤ)) (-1) - 1 } : Order).wait_weeks = 0)]
    · rw [if_neg (not_le.mpr hc), if_neg (not_le.mpr hc)]
  · intro k hk
    rw [Function.iterate_succ_apply', tickOrder_iterate o h0 k]
    unfold matureStep tickOrder
    have hc : (0:ℤ) ≤ max (o.wait_weeks - (k:ℤ)) (-1) := by omega
    rw [if_pos hc, if_pos hc,
      if_pos (by simp only; omega : ({ o with wait_weeks := max (o.wait_weeks - (k:ℤ)) (-1) - 1 } : Order).wait_weeks = 0)]
    cases hie : o.is_effect <;> simp [hie, Except.map]

theorem maturation_exactly_once_witness :
    1 ≤ huntNoTarget.wait_weeks ∧
      ((∀ k : ℕ, (tickOrder^[k] huntNoTarget).wait_weeks = 1 ↔
          (k : ℤ) = huntNoTarget.wait_weeks - 1) ∧
        (∀ k : ℕ, (k : ℤ) ≠ huntNoTarget.wait_weeks - 1 →
          matureStep initialize_inventory (tickOrder^[k] huntNoTarget) =
            .ok (initialize_inventory, tickOrder^[k+1] huntNoTarget)) ∧
        (∀ k : ℕ, (k : ℤ) = huntNoTarget.wait_weeks - 1 →
          matureStep initialize_inventory (tickOrder^[k] huntNoTarget) =
            (if (tickOrder^[k+1] huntNoTarget).is_effect = true then
                apply_event_effect (tickOrder^[k+1] huntNoTarget)
                  initialize_inventory
              else .ok (apply_order_effect (tickOrder^[k+1] huntNoTarget)
                  initialize_inventory)).map
              (fun i => (i, tickOrder^[k+1] huntNoTarget)))) :=
  ⟨by norm_num [huntNoTarget],
    maturation_exactly_once initialize_inventory huntNoTarget
      (by norm_num [huntNoTarget])⟩


@[simp] theorem get_credits (inv : Inventory) :
    inv.get? "credits" = some inv.credits := rfl

@[simp] theorem set_credits (inv : Inventory) (v : ℚ) :
    inv.set "credits" v = { inv with credits := v } := rfl

@[simp] theorem get_ta_saltos_shifts (inv : Inventory) :
    inv.get? "ta_saltos_shifts" = some inv.ta_saltos_shifts := rfl

@[simp] theorem set_ta_saltos_shifts (inv : Inventory) (v : ℚ) :
    inv.set "ta_saltos_shifts" v = { inv with ta_saltos_shifts := v } := rfl

@[simp] theorem get_ta_nitro_shifts (inv : Inventory) :
    inv.get? "ta_nitro_shifts" = some inv.ta_nitro_shifts := rfl

@[simp] theorem set_ta_nitro_shifts (inv : Inventory) (v : ℚ) :
    inv.set "ta_nitro_shifts" v = { inv with ta_nitro_shifts := v } := rfl

@[simp] theorem get_ta_helene_shifts (inv : Inventory) :
    inv.get? "ta_helene_shifts" = some inv.ta_helene_shifts := rfl

@[simp] theorem set_ta_helene_shifts (inv : Inventory) (v : ℚ) :
    inv.set "ta_helene_shifts" v = { inv with ta_helene_shifts := v } := rfl

@[simp] theorem get_ta_carnival_shifts (inv : Inventory) :
    inv.get? "ta_carnival_shifts" = some inv.ta_carnival_shifts := rfl

@[simp] theorem set_ta_carnival_shifts (inv : Inventory) (v : ℚ) :
    inv.set "ta_carnival_shifts" v = { inv with ta_carnival_shifts := v } := rfl

@[simp] theorem get_ta_saltos_shifts_max (inv : Inventory) :
    inv.get? "ta_saltos_shifts_max" = some inv.ta_saltos_shifts_max := rfl

@[simp] theorem set_ta_saltos_shifts_max (inv : Inventory) (v : ℚ) :
    inv.set "ta_saltos_shifts_max" v = { inv with ta_saltos_shifts_max := v } := rfl

@[simp] theorem get_ta_nitro_shifts_max (inv : Inventory) :
    inv.get? "ta_nitro_shifts_max" = some inv.ta_nitro_shifts_max := rfl

@[simp] theorem set_ta_nitro_shifts_max (inv : Inventory) (v : ℚ) :
    inv.set "ta_nitro_shifts_max" v = { inv with ta_nitro_shifts_max := v } := rfl

@[simp] theorem get_ta_helene_shifts_max (inv : Inventory) :
    inv.get? "ta_helene_shifts_max" = some inv.ta_helene_shifts_max := rfl

@[simp] theorem set_ta_helene_shifts_max (inv : Inventory) (v : ℚ) :
    inv.set "ta_helene_shifts_max" v = { inv with ta_helene_shifts_max := v } := rfl

@[simp] theorem get_ta_carnival_shifts_max (inv : Inventory) :
    inv.get? "ta_carnival_shifts_max" = some inv.ta_carnival_shifts_max := rfl

@[simp] theorem set_ta_carnival_shifts_max (inv : Inventory) (v : ℚ) :
    inv.set "ta_carnival_shifts_max" v = { inv with ta_carnival_shifts_max := v } := rfl

@[simp] theorem get_ta_saltos_risk (inv : Inventory) :
    inv.get? "ta_saltos_risk" = some inv.ta_saltos_risk := rfl

@[simp] theorem set_ta_saltos_risk (inv : Inventory) (v : ℚ) :
    inv.set "ta_saltos_risk" v = { inv with ta_saltos_risk := v } := rfl

@[simp] theorem get_ta_nitro_risk (inv : Inventory) :
    inv.get? "ta_nitro_risk" = some inv.ta_nitro_risk := rfl

@[simp] theorem set_ta_nitro_risk (inv : Inventory) (v : ℚ) :
    inv.set "ta_nitro_risk" v = { inv with ta_nitro_risk := v } := rfl

@[simp] theorem get_ta_helene_risk (inv : Inventory) :
    inv.get? "ta_helene_risk" = some inv.ta_helene_risk := rfl

@[simp] theorem set_ta_helene_risk (inv : Inventory) (v : ℚ) :
    inv.set "ta_helene_risk" v = { inv with ta_helene_risk := v } := rfl

@[simp] theorem get_ta_carnival_risk (inv : Inventory) :
    inv.get? "ta_carnival_risk" = some inv.ta_carnival_risk := rfl

@[simp] theorem set_ta_carnival_risk (inv : Inventory) (v : ℚ) :
    inv.set "ta_carnival_risk" v = { inv with ta_carnival_risk := v } := rfl

@[simp] theorem get_juice (inv : Inventory) :
    inv.get? "juice" = some inv.juice := rfl

@[simp] theorem set_juice (inv : Inventory) (v : ℚ) :
    inv.set "juice" v = { inv with juice := v } := rfl

@[simp] theorem get_animals_51u6_max (inv : Inventory) :
    inv.get? "animals_51u6_max" = some inv.animals_51u6_max := rfl

@[simp] theorem set_animals_51u6_max (inv : Inventory) (v : ℚ) :
    inv.set "animals_51u6_max" v = { inv with animals_51u6_max := v } := rfl

@[simp] theorem get_animals_51u6_m_max (inv : Inventory) :
    inv.get? "animals_51u6_m_max" = some inv.animals_51u6_m_max := rfl

@[simp] theorem set_animals_51u6_m_max (inv : Inventory) (v : ℚ) :
    inv.set "animals_51u6_m_max" v = { inv with animals_51u6_m_max := v } := rfl

@[simp] theorem get_animals_c248_s_max (inv : Inventory) :
    inv.get? "animals_c248_s_max" = some inv.animals_c248_s_max := rfl

@[simp] theorem set_animals_c248_s_max (inv : Inventory) (v : ℚ) :
    inv.set "animals_c248_s_max" v = { inv with animals_c248_s_max := v } := rfl

@[simp] theorem get_animals_c248_b_max (inv : Inventory) :
    inv.get? "animals_c248_b_max" = some inv.animals_c248_b_max := rfl

@[simp] theorem set_animals_c248_b_max (inv : Inventory) (v : ℚ) :
    inv.set "animals_c248_b_max" v = { inv with animals_c248_b_max := v } := rfl

@[simp] theorem get_animals_51u6_available (inv : Inventory) :
    inv.get? "animals_51u6_available" = some inv.animals_51u6_available := rfl

@[simp] theorem set_animals_51u6_available (inv : Inventory) (v : ℚ) :
    inv.set "animals_51u6_available" v = { inv with animals_51u6_available := v } := rfl

@[simp] theorem get_animals_51u6_m_available (inv : Inventory) :
    inv.get? "animals_51u6_m_available" = some inv.animals_51u6_m_available := rfl

@[simp] theorem set_animals_51u6_m_available (inv : Inventory) (v : ℚ) :
    inv.set "animals_51u6_m_available" v = { inv with animals_51u6_m_available := v } := rfl

@[simp] theorem get_animals_c248_s_available (inv : Inventory) :
    inv.get? "animals_c248_s_available" = some inv.animals_c248_s_available := rfl

@[simp] theorem set_animals_c248_s_available (inv : Inventory) (v : ℚ) :
    inv.set "animals_c248_s_available" v = { inv with animals_c248_s_available := v } := rfl

@[simp] theorem get_animals_c248_b_available (inv : Inventory) :
    inv.get? "animals_c248_b_available" = some inv.animals_c248_b_available := rfl

@[simp] theorem set_animals_c248_b_available (inv : Inventory) (v : ℚ) :
    inv.set "animals_c248_b_available" v = { inv with animals_c248_b_available := v } := rfl

@[simp] theorem get_xatty_cartridge (inv : Inventory) :
    inv.get? "xatty_cartridge" = some inv.xatty_cartridge := rfl

@[simp] theorem set_xatty_cartridge (inv : Inventory) (v : ℚ) :
    inv.set "xatty_cartridge" v = { inv with xatty_cartridge := v } := rfl

@[simp] theorem get_zeropoint_cartridge (inv : Inventory) :
    inv.get? "zeropoint_cartridge" = some inv.zeropoint_cartridge := rfl

@[simp] theorem set_zeropoint_cartridge (inv : Inventory) (v : ℚ) :
    inv.set "zeropoint_cartridge" v = { inv with zeropoint_cartridge := v } := rfl

@[simp] theorem get_nc_pk1_cartridge (inv : Inventory) :
    inv.get? "nc_pk1_cartridge" = some inv.nc_pk1_cartridge := rfl

@[simp] theorem set_nc_pk1_cartridge (inv : Inventory) (v : ℚ) :
    inv.set "nc_pk1_cartridge" v = { inv with nc_pk1_cartridge := v } := rfl

@[simp] theorem get_smart_filament_s_cartridge (inv : Inventory) :
    inv.get? "smart_filament_s_cartridge" = some inv.smart_filament_s_cartridge := rfl

@[simp] theorem set_smart_filament_s_cartridge (inv : Inventory) (v : ℚ) :
    inv.set "smart_filament_s_cartridge" v = { inv with smart_filament_s_cartridge := v } := rfl

@[simp] theorem get_smart_filament_m_cartridge (inv : Inventory) :
    inv.get? "smart_filament_m_cartridge" = some inv.smart_filament_m_cartridge := rfl

@[simp] theorem set_smart_filament_m_cartridge (inv : Inventory) (v : ℚ) :
    inv.set "smart_filament_m_cartridge" v = { inv with smart_filament_m_cartridge := v } := rfl

@[simp] theorem get_smart_filament_l_cartridge (inv : Inventory) :
    inv.get? "smart_filament_l_cartridge" = some inv.smart_filament_l_cartridge := rfl

@[simp] theorem set_smart_filament_l_cartridge (inv : Inventory) (v : ℚ) :
    inv.set "smart_filament_l_cartridge" v = { inv with smart_filament_l_cartridge := v } := rfl

@[simp] theorem get_mamr_reel_cartrdige (inv : Inventory) :
    inv.get? "mamr_reel_cartrdige" = some inv.mamr_reel_cartrdige := rfl

@[simp] theorem set_mamr_reel_cartrdige (inv : Inventory) (v : ℚ) :
    inv.set "mamr_reel_cartrdige" v = { inv with mamr_reel_cartrdige := v } := rfl

@[simp] theorem get_dupont_cartridge (inv : Inventory) :
    inv.get? "dupont_cartridge" = some inv.dupont_cartridge := rfl

@[simp] theorem set_dupont_cartridge (inv : Inventory) (v : ℚ) :
    inv.set "dupont_cartridge" v = { inv with dupont_cartridge := v } := rfl

theorem deduct_ta_shifts_offshift (inv : Inventory) (r : ℚ) :
    offShiftAgree inv (deduct_ta_shifts inv r) := by
  unfold offShiftAgree deduct_ta_shifts ta_fields
  simp [deductLoop]
  split_ifs <;> simp

theorem deduct_ta_shifts_sum (inv : Inventory) (r : ℚ)
    (hsum : r ≤ shiftSum inv) :
    shiftSum (deduct_ta_shifts inv r) = shiftSum inv - r := by
  unfold deduct_ta_shifts ta_fields
  unfold shiftSum at hsum ⊢
  simp [deductLoop]
  split_ifs <;> simp_all [min_def] <;> repeat' apply And.intro
  all_goals first | linarith | (split_ifs at * <;> (try simp_all) <;> (try linarith))

theorem deduct_ta_shifts_nonneg (inv : Inventory) (r : ℚ)
    (h1 : 0 ≤ inv.ta_saltos_shifts) (h2 : 0 ≤ inv.ta_nitro_shifts)
    (h3 : 0 ≤ inv.ta_helene_shifts) (h4 : 0 ≤ inv.ta_carnival_shifts) :
    0 ≤ (deduct_ta_shifts inv r).ta_saltos_shifts ∧
    0 ≤ (deduct_ta_shifts inv r).ta_nitro_shifts ∧
    0 ≤ (deduct_ta_shifts inv r).ta_helene_shifts ∧
    0 ≤ (deduct_ta_shifts inv r).ta_carnival_shifts := by
  unfold deduct_ta_shifts ta_fields
  simp [deductLoop]
  split_ifs <;> simp_all [min_def] <;> repeat' apply And.intro
  all_goals first | linarith | (split_ifs at * <;> (try simp_all) <;> (try linarith))

theorem collectLoop_offshift (inv : Inventory) (r : ℚ) :
    offShiftAgree inv (collectDeductLoop inv r ta_fields).1 := by
  unfold offShiftAgree ta_fields
  simp [collectDeductLoop]
  split_ifs <;> simp

theorem collectLoop_sum (inv : Inventory) (r : ℚ)
    (hsum : r ≤ shiftSum inv) :
    shiftSum (collectDeductLoop inv r ta_fields).1 = shiftSum inv - r := by
  unfold ta_fields
  unfold shiftSum at hsum ⊢
  simp [collectDeductLoop]
  split_ifs <;> simp_all [min_def] <;> repeat' apply And.intro
  all_goals first | linarith | (split_ifs at * <;> (try simp_all) <;> (try linarith))

theorem collectLoop_fields (inv : Inventory) (r : ℚ)
    (h1 : 0 ≤ inv.ta_saltos_shifts) (h2 : 0 ≤ inv.ta_nitro_shifts)
    (h3 : 0 ≤ inv.ta_helene_shifts) (h4 : 0 ≤ inv.ta_carnival_shifts)
    (hsum : r ≤ shiftSum inv) :
    (collectDeductLoop inv r ta_fields).1.ta_saltos_shifts =
      inv.ta_saltos_shifts - min inv.ta_saltos_shifts r ∧
    (collectDeductLoop inv r ta_fields).1.ta_nitro_shifts =
      inv.ta_nitro_shifts -
        min inv.ta_nitro_shifts (r - min inv.ta_saltos_shifts r) ∧
    (collectDeductLoop inv r ta_fields).1.ta_helene_shifts =
      inv.ta_helene_shifts -
        min inv.ta_helene_shifts (r - min inv.ta_saltos_shifts r -
          min inv.ta_nitro_shifts (r - min inv.ta_saltos_shifts r)) ∧
    (collectDeductLoop inv r ta_fields).1.ta_carnival_shifts =
      inv.ta_carnival_shifts -
        min inv.ta_carnival_shifts (r - min inv.ta_saltos_shifts r -
          min inv.ta_nitro_shifts (r - min inv.ta_saltos_shifts r) -
          min inv.ta_helene_shifts (r - min inv.ta_saltos_shifts r -
            min inv.ta_nitro_shifts (r - min inv.ta_saltos_shifts r))) := by
  unfold ta_fields
  unfold shiftSum at hsum
  simp [collectDeductLoop]
  split_ifs <;> simp_all [min_def] <;> repeat' apply And.intro
  all_goals first | linarith | (split_ifs at * <;> (try simp_all) <;> (try linarith))

theorem collectLoop_nonneg (inv : Inventory) (r : ℚ)
    (h1 : 0 ≤ inv.ta_saltos_shifts) (h2 : 0 ≤ inv.ta_nitro_shifts)
    (h3 : 0 ≤ inv.ta_helene_shifts) (h4 : 0 ≤ inv.ta_carnival_shifts) :
    0 ≤ (collectDeductLoop inv r ta_fields).1.ta_saltos_shifts ∧
    0 ≤ (collectDeductLoop inv r ta_fields).1.ta_nitro_shifts ∧
    0 ≤ (collectDeductLoop inv r ta_fields).1.ta_helene_shifts ∧
    0 ≤ (collectDeductLoop inv r ta_fields).1.ta_carnival_shifts := by
  unfold ta_fields
  simp [collectDeductLoop]
  split_ifs <;> simp_all [min_def] <;> repeat' apply And.intro
  all_goals first | linarith | (split_ifs at * <;> (try simp_all) <;> (try linarith))

@[simp] theorem append_51u6_avail :
    ("animals_51u6" ++ "_available" : String) = "animals_51u6_available" := rfl

@[simp] theorem append_51u6_m_avail :
    ("animals_51u6_m" ++ "_available" : String) = "animals_51u6_m_available" := rfl

@[simp] theorem append_c248_s_avail :
    ("animals_c248_s" ++ "_available" : String) = "animals_c248_s_available" := rfl

@[simp] theorem append_c248_b_avail :
    ("animals_c248_b" ++ "_available" : String) = "animals_c248_b_available" := rfl

@[simp] theorem append_51u6_max :
    ("animals_51u6" ++ "_max" : String) = "animals_51u6_max" := rfl

@[simp] theorem append_51u6_m_max :
    ("animals_51u6_m" ++ "_max" : String) = "animals_51u6_m_max" := rfl

@[simp] theorem append_c248_s_max :
    ("animals_c248_s" ++ "_max" : String) = "animals_c248_s_max" := rfl

@[simp] theorem append_c248_b_max :
    ("animals_c248_b" ++ "_max" : String) = "animals_c248_b_max" := rfl

/-- C9: the shared greedy deduction (the `deduct_ta_shifts` loop and the
identical loop in `collect_animals`) removes exactly `required` from the
total of the four role fields and leaves every role non-negative,
whenever the fields are non-negative and their sum covers `required`. -/
theorem greedy_deduction_exact_nonneg (inv : Inventory) (required : ℚ)
    (h1 : 0 ≤ inv.ta_saltos_shifts) (h2 : 0 ≤ inv.ta_nitro_shifts)
    (h3 : 0 ≤ inv.ta_helene_shifts) (h4 : 0 ≤ inv.ta_carnival_shifts)
    (hsum : required ≤ shiftSum inv) :
    (shiftSum (deduct_ta_shifts inv required) = shiftSum inv - required ∧
      (0 ≤ (deduct_ta_shifts inv required).ta_saltos_shifts ∧
        0 ≤ (deduct_ta_shifts inv required).ta_nitro_shifts ∧
        0 ≤ (deduct_ta_shifts inv required).ta_helene_shifts ∧
        0 ≤ (deduct_ta_shifts inv required).ta_carnival_shifts)) ∧
    (shiftSum (collectDeductLoop inv required ta_fields).1 =
        shiftSum inv - required ∧
      (0 ≤ (collectDeductLoop inv required ta_fields).1.ta_saltos_shifts ∧
        0 ≤ (collectDeductLoop inv required ta_fields).1.ta_nitro_shifts ∧
        0 ≤ (collectDeductLoop inv required ta_fields).1.ta_helene_shifts ∧
        0 ≤ (collectDeductLoop inv required ta_fields).1.ta_carnival_shifts)) :=
  ⟨⟨deduct_ta_shifts_sum inv required hsum,
      deduct_ta_shifts_nonneg inv required h1 h2 h3 h4⟩,
    ⟨collectLoop_sum inv required hsum,
      collectLoop_nonneg inv required h1 h2 h3 h4⟩⟩

theorem greedy_deduction_exact_nonneg_witness :
    ((0 ≤ initialize_inventory.ta_saltos_shifts ∧
        0 ≤ initialize_inventory.ta_nitro_shifts ∧
        0 ≤ initialize_inventory.ta_helene_shifts ∧
        0 ≤ initialize_inventory.ta_carnival_shifts) ∧
      (45:ℚ) ≤ shiftSum initialize_inventory) ∧
    ((shiftSum (deduct_ta_shifts initialize_inventory 45) =
        shiftSum initialize_inventory - 45 ∧
      (0 ≤ (deduct_ta_shifts initialize_inventory 45).ta_saltos_shifts ∧
        0 ≤ (deduct_ta_shifts initialize_inventory 45).ta_nitro_shifts ∧
        0 ≤ (deduct_ta_shifts initialize_inventory 45).ta_helene_shifts ∧
        0 ≤ (deduct_ta_shifts initialize_inventory 45).ta_carnival_shifts)) ∧
    (shiftSum (collectDeductLoop initialize_inventory 45 ta_fields).1 =
        shiftSum initialize_inventory - 45 ∧
      (0 ≤ (collectDeductLoop initialize_inventory 45 ta_fields).1.ta_saltos_shifts ∧
        0 ≤ (collectDeductLoop initialize_inventory 45 ta_fields).1.ta_nitro_shifts ∧
        0 ≤ (collectDeductLoop initialize_inventory 45 ta_fields).1.ta_helene_shifts ∧
        0 ≤ (collectDeductLoop initialize_inventory 45 ta_fields).1.ta_carnival_shifts))) :=
  ⟨⟨⟨by norm_num [initialize_inventory], by norm_num [initialize_inventory],
      by norm_num [initialize_inventory], by norm_num [initialize_inventory]⟩,
      by norm_num [initialize_inventory, shiftSum]⟩,
    greedy_deduction_exact_nonneg initialize_inventory 45
      (by norm_num [initialize_inventory]) (by norm_num [initialize_inventory])
      (by norm_num [initialize_inventory]) (by norm_num [initialize_inventory])
      (by norm_num [initialize_inventory, shiftSum])⟩

/-- C7: whenever total shifts are at least 12, `collect_animals` removes
exactly 12 shifts, greedily in the fixed role order saltos, nitro,
helene, carnival (each role absorbs as much of the remainder as it has);
and a zero sampled yield changes nothing beyond that sunk shift cost and
creates no order, without raising. -/
theorem collect_animals_greedy_twelve (inv : Inventory) (uid : ℤ)
    (sp : AnimalSpecies) (amount : ℤ)
    (h1 : 0 ≤ inv.ta_saltos_shifts) (h2 : 0 ≤ inv.ta_nitro_shifts)
    (h3 : 0 ≤ inv.ta_helene_shifts) (h4 : 0 ≤ inv.ta_carnival_shifts)
    (h12 : 12 ≤ shiftSum inv) :
    shiftSum (collect_animals inv uid sp amount).1 = shiftSum inv - 12 ∧
    (collect_animals inv uid sp amount).1.ta_saltos_shifts =
      inv.ta_saltos_shifts - min inv.ta_saltos_shifts 12 ∧
    (collect_animals inv uid sp amount).1.ta_nitro_shifts =
      inv.ta_nitro_shifts -
        min inv.ta_nitro_shifts (12 - min inv.ta_saltos_shifts 12) ∧
    (collect_animals inv uid sp amount).1.ta_helene_shifts =
      inv.ta_helene_shifts -
        min inv.ta_helene_shifts (12 - min inv.ta_saltos_shifts 12 -
          min inv.ta_nitro_shifts (12 - min inv.ta_saltos_shifts 12)) ∧
    (collect_animals inv uid sp amount).1.ta_carnival_shifts =
      inv.ta_carnival_shifts -
        min inv.ta_carnival_shifts (12 - min inv.ta_saltos_shifts 12 -
          min inv.ta_nitro_shifts (12 - min inv.ta_saltos_shifts 12) -
          min inv.ta_helene_shifts (12 - min inv.ta_saltos_shifts 12 -
            min inv.ta_nitro_shifts (12 - min inv.ta_saltos_shifts 12))) ∧
    (amount = 0 →
      collect_animals inv uid sp amount =
        ((collectDeductLoop inv 12 ta_fields).1, none) ∧
      offShiftAgree inv (collect_animals inv uid sp amount).1) := by
  have hni : ¬shiftSum inv < 12 := not_lt.mpr h12
  obtain ⟨f1, f2, f3, f4⟩ := collectLoop_fields inv 12 h1 h2 h3 h4 h12
  have hs := collectLoop_sum inv 12 h12
  have hoff := collectLoop_offshift inv 12
  cases sp <;>
    (simp only [collect_animals, AnimalSpecies.value, hunting_cooldown, hni,
        if_false, ite_false, if_neg hni];
      split_ifs <;>
        simp_all [shiftSum, offShiftAgree, ta_fields])

/-- C1: the compute-cost step of every costed experiment booking crashes
unconditionally — `calculate_ocs_cost` evaluates
`ArticleEnum.KPI_OCS_JOB`, a member that does not exist — so no DGE or
Polykiln booking can ever reach a credits check or perform a single
deduction.  Concretely, on the fresh ledger the DGE booking passes its
cartridge and TA-shift checks and then raises `AttributeError`; and in
general neither operation can ever return a booked state. -/
theorem dge_polykiln_booking_unreachable :
    run_geneweaver_dge_analysis initialize_inventory "animals_51u6" [5] 0
        true =
      .error
        "AttributeError: type object ArticleEnum has no attribute KPI_OCS_JOB" ∧
    (∀ (inv : Inventory) (species : String) (group_counts : List ℤ)
        (max_sequences : ℤ) (confirm : Bool) (inv' : Inventory),
      run_geneweaver_dge_analysis inv species group_counts max_sequences
        confirm ≠ .ok (some inv')) ∧
    (∀ (inv : Inventory) (size_tier : String) (mech_tier elec_tier : ℤ)
        (confirm : Bool) (inv' : Inventory),
      run_polykiln_fabrication inv size_tier mech_tier elec_tier confirm ≠
        .ok (some inv')) := by
  refine ⟨?_, ?_, ?_⟩
  · norm_num [run_geneweaver_dge_analysis, dgeShiftsRequired,
      check_ta_shifts_required, shiftSum, initialize_inventory,
      calculate_ocs_cost]
  · intro inv species group_counts max_sequences confirm inv'
    unfold run_geneweaver_dge_analysis
    split_ifs <;> simp [calculate_ocs_cost]
  · intro inv size_tier mech_tier elec_tier confirm inv'
    unfold run_polykiln_fabrication
    cases sizePoints size_tier <;>
      cases tierShifts mech_tier <;>
      cases tierShifts elec_tier <;>
      cases tierCosts mech_tier <;>
      cases tierCosts elec_tier <;>
        simp [calculate_ocs_cost]

theorem collect_animals_greedy_twelve_witness :
    ((0:ℚ) ≤ initialize_inventory.ta_saltos_shifts ∧
      (0:ℚ) ≤ initialize_inventory.ta_nitro_shifts ∧
      (0:ℚ) ≤ initialize_inventory.ta_helene_shifts ∧
      (0:ℚ) ≤ initialize_inventory.ta_carnival_shifts ∧
      (12:ℚ) ≤ shiftSum initialize_inventory) ∧
    shiftSum (collect_animals initialize_inventory 1 .c248_s 12).1 =
      shiftSum initialize_inventory - 12 :=
  ⟨⟨by norm_num [initialize_inventory], by norm_num [initialize_inventory],
      by norm_num [initialize_inventory], by norm_num [initialize_inventory],
      by norm_num [initialize_inventory, shiftSum]⟩,
    (collect_animals_greedy_twelve initialize_inventory 1 .c248_s 12
        (by norm_num [initialize_inventory])
        (by norm_num [initialize_inventory])
        (by norm_num [initialize_inventory])
        (by norm_num [initialize_inventory])
        (by norm_num [initialize_inventory, shiftSum])).1⟩

/-- C4 (amended): under administer-boost the role's risk never
decreases (given the risk invariant `risk <= 100`); but on the fatality
outcome the role's `shifts_max` and `shifts` become 0 while the risk is
left unchanged — it is NOT reset to 0. -/
theorem juiz_risk_monotone_fatality_keeps_risk (inv : Inventory)
    (ta_field : String) (uid dice : ℤ) (inv' : Inventory) (o : Order)
    (hf : ta_field ∈ ta_fields)
    (heq : administer_juiz inv ta_field uid dice = .ok (inv', o)) :
    ((inv.get? (pyReplace ta_field "_shifts" "_risk")).getD 0 ≤ 100 →
      (inv.get? (pyReplace ta_field "_shifts" "_risk")).getD 0 ≤
        (inv'.get? (pyReplace ta_field "_shifts" "_risk")).getD 0) ∧
    (¬juiz_success ((inv.get? (pyReplace ta_field "_shifts" "_risk")).getD 0)
        dice →
      (inv'.get? ta_field).getD 0 = 0 ∧
      (inv'.get? (pyReplace ta_field "_shifts" "_shifts_max")).getD 0 = 0 ∧
      (inv'.get? (pyReplace ta_field "_shifts" "_risk")).getD 0 =
        (inv.get? (pyReplace ta_field "_shifts" "_risk")).getD 0) := by
  simp only [ta_fields, List.mem_cons, List.not_mem_nil, or_false] at hf
  rcases hf with rfl | rfl | rfl | rfl <;>
  · unfold administer_juiz at heq
    simp only [pyReplace_saltos_risk, pyReplace_nitro_risk,
      pyReplace_helene_risk, pyReplace_carnival_risk, pyReplace_saltos_max,
      pyReplace_nitro_max, pyReplace_helene_max, pyReplace_carnival_max]
      at heq ⊢
    simp only [get_ta_saltos_shifts, get_ta_nitro_shifts,
      get_ta_helene_shifts, get_ta_carnival_shifts, get_ta_saltos_shifts_max,
      get_ta_nitro_shifts_max, get_ta_helene_shifts_max,
      get_ta_carnival_shifts_max, get_ta_saltos_risk, get_ta_nitro_risk,
      get_ta_helene_risk, get_ta_carnival_risk, set_ta_saltos_shifts,
      set_ta_nitro_shifts, set_ta_helene_shifts, set_ta_carnival_shifts,
      set_ta_saltos_shifts_max, set_ta_nitro_shifts_max,
      set_ta_helene_shifts_max, set_ta_carnival_shifts_max,
      set_ta_saltos_risk, set_ta_nitro_risk, set_ta_helene_risk,
      set_ta_carnival_risk, Option.getD_some] at heq ⊢
    split_ifs at heq with hjuice helig hsucc
    all_goals try (exact Except.noConfusion heq)
    · -- survival branch
      rw [Except.ok.injEq, Prod.mk.injEq] at heq
      obtain ⟨hinv, -⟩ := heq
      subst hinv
      constructor
      · intro h100
        simp only [get_ta_saltos_risk, get_ta_nitro_risk, get_ta_helene_risk,
          get_ta_carnival_risk, Option.getD_some]
        simp
        all_goals linarith
      · intro hns
        exact absurd hsucc hns
    · -- fatality branch
      rw [Except.ok.injEq, Prod.mk.injEq] at heq
      obtain ⟨hinv, -⟩ := heq
      subst hinv
      refine ⟨fun _ => by simp, fun _ => ⟨by simp, by simp, by simp⟩⟩

/-- C4 counterexample: boosting saltos at 10% risk with roll 5 takes the
fatality branch; shifts and shifts_max become 0 but the risk stays 10,
which is not 0. -/
theorem fatality_does_not_reset_risk_cex :
    (administer_juiz riskyInv "ta_saltos_shifts" 1 5).map
        (fun p => (p.1.ta_saltos_risk, p.1.ta_saltos_shifts,
          p.1.ta_saltos_shifts_max)) = .ok (10, 0, 0) ∧
    (10:ℚ) ≠ 0 := by
  constructor
  · simp only [administer_juiz, pyReplace_saltos_risk, pyReplace_saltos_max]
    norm_num [riskyInv, initialize_inventory, juiz_success, Except.map]
  · norm_num

theorem juiz_fatality_eval :
    administer_juiz riskyInv "ta_saltos_shifts" 1 5 =
      .ok (juizFatalInv, juizFatalOrder) := by
  simp only [administer_juiz, pyReplace_saltos_risk, pyReplace_saltos_max]
  norm_num [riskyInv, initialize_inventory, juiz_success, juizFatalInv,
    juizFatalOrder]

theorem juiz_risk_monotone_fatality_keeps_risk_witness :
    ((riskyInv.get? (pyReplace "ta_saltos_shifts" "_shifts" "_risk")).getD 0
        ≤ 100 →
      (riskyInv.get? (pyReplace "ta_saltos_shifts" "_shifts" "_risk")).getD 0
        ≤ (juizFatalInv.get?
            (pyReplace "ta_saltos_shifts" "_shifts" "_risk")).getD 0) ∧
    (¬juiz_success
        ((riskyInv.get? (pyReplace "ta_saltos_shifts" "_shifts"
          "_risk")).getD 0) 5 →
      (juizFatalInv.get? "ta_saltos_shifts").getD 0 = 0 ∧
      (juizFatalInv.get?
          (pyReplace "ta_saltos_shifts" "_shifts" "_shifts_max")).getD 0 = 0 ∧
      (juizFatalInv.get?
          (pyReplace "ta_saltos_shifts" "_shifts" "_risk")).getD 0 =
        (riskyInv.get?
          (pyReplace "ta_saltos_shifts" "_shifts" "_risk")).getD 0) :=
  juiz_risk_monotone_fatality_keeps_risk riskyInv "ta_saltos_shifts" 1 5
    juizFatalInv juizFatalOrder (by simp [ta_fields]) juiz_fatality_eval

theorem set_of_invalid (inv : Inventory) (f : String) (v : ℚ)
    (h : inv.get? f = none) : inv.set f v = inv := by
  by_cases h1 : f = "credits"
  · subst h1; simp at h
  by_cases h2 : f = "ta_saltos_shifts"
  · subst h2; simp at h
  by_cases h3 : f = "ta_nitro_shifts"
  · subst h3; simp at h
  by_cases h4 : f = "ta_helene_shifts"
  · subst h4; simp at h
  by_cases h5 : f = "ta_carnival_shifts"
  · subst h5; simp at h
  by_cases h6 : f = "ta_saltos_shifts_max"
  · subst h6; simp at h
  by_cases h7 : f = "ta_nitro_shifts_max"
  · subst h7; simp at h
  by_cases h8 : f = "ta_helene_shifts_max"
  · subst h8; simp at h
  by_cases h9 : f = "ta_carnival_shifts_max"
  · subst h9; simp at h
  by_cases h10 : f = "ta_saltos_risk"
  · subst h10; simp at h
  by_cases h11 : f = "ta_nitro_risk"
  · subst h11; simp at h
  by_cases h12 : f = "ta_helene_risk"
  · subst h12; simp at h
  by_cases h13 : f = "ta_carnival_risk"
  · subst h13; simp at h
  by_cases h14 : f = "juice"
  · subst h14; simp at h
  by_cases h15 : f = "animals_51u6_max"
  · subst h15; simp at h
  by_cases h16 : f = "animals_51u6_m_max"
  · subst h16; simp at h
  by_cases h17 : f = "animals_c248_s_max"
  · subst h17; simp at h
  by_cases h18 : f = "animals_c248_b_max"
  · subst h18; simp at h
  by_cases h19 : f = "animals_51u6_available"
  · subst h19; simp at h
  by_cases h20 : f = "animals_51u6_m_available"
  · subst h20; simp at h
  by_cases h21 : f = "animals_c248_s_available"
  · subst h21; simp at h
  by_cases h22 : f = "animals_c248_b_available"
  · subst h22; simp at h
  by_cases h23 : f = "xatty_cartridge"
  · subst h23; simp at h
  by_cases h24 : f = "zeropoint_cartridge"
  · subst h24; simp at h
  by_cases h25 : f = "nc_pk1_cartridge"
  · subst h25; simp at h
  by_cases h26 : f = "smart_filament_s_cartridge"
  · subst h26; simp at h
  by_cases h27 : f = "smart_filament_m_cartridge"
  · subst h27; simp at h
  by_cases h28 : f = "smart_filament_l_cartridge"
  · subst h28; simp at h
  by_cases h29 : f = "mamr_reel_cartrdige"
  · subst h29; simp at h
  by_cases h30 : f = "dupont_cartridge"
  · subst h30; simp at h
  unfold Inventory.set
  rw [if_neg h1, if_neg h2, if_neg h3, if_neg h4, if_neg h5, if_neg h6, if_neg h7, if_neg h8, if_neg h9, if_neg h10, if_neg h11, if_neg h12, if_neg h13, if_neg h14, if_neg h15, if_neg h16, if_neg h17, if_neg h18, if_neg h19, if_neg h20, if_neg h21, if_neg h22, if_neg h23, if_neg h24, if_neg h25, if_neg h26, if_neg h27, if_neg h28, if_neg h29, if_neg h30]

theorem matureAll_cons (inv : Inventory) (o : Order) (rest : List Order)
    (inv1 : Inventory) (o' : Order)
    (h : matureStep inv o = .ok (inv1, o')) :
    matureAll inv (o :: rest) =
      (matureAll inv1 rest).map (fun p => (p.1, o' :: p.2)) := by
  simp only [matureAll, h]
  cases hm : matureAll inv1 rest with
  | error e => simp [Except.map]
  | ok p => cases p; simp [Except.map]

/-- C6 (amended): during the maturation pass, a Pending Effect with an
unknown event type, and a boost-aftermath effect with a missing or
non-ledger target field, are dropped with a warning only — no ledger
change, no exception, and the driver continues with the rest of the
queue.  A hunt-delivery effect with a non-ledger string target also
changes no ledger field (it only creates a shadow attribute), though a
hunt-delivery with a NULL target raises instead (see the
counterexample). -/
theorem maturation_drop_semantics (inv : Inventory) (o : Order)
    (rest : List Order) (hie : o.is_effect = true) (hw : o.wait_weeks = 1)
    (hbad :
      (o.event_type ≠ some "juiz" ∧ o.event_type ≠ some "hunt") ∨
      (o.event_type = some "juiz" ∧
        (o.inventory_field = none ∨
          ∃ f, o.inventory_field = some f ∧ inv.get? f = none)) ∨
      (o.event_type = some "hunt" ∧
        ∃ f, o.inventory_field = some f ∧ inv.get? f = none)) :
    apply_event_effect (tickOrder o) inv = .ok inv ∧
    matureAll inv (o :: rest) =
      (matureAll inv rest).map (fun p => (p.1, tickOrder o :: p.2)) := by
  have ht : tickOrder o = { o with wait_weeks := 0 } := by
    unfold tickOrder
    rw [if_pos (show (0:ℤ) ≤ o.wait_weeks by rw [hw]; norm_num), hw]
    norm_num
  have h1 : apply_event_effect (tickOrder o) inv = .ok inv := by
    rw [ht]
    unfold apply_event_effect handle_juiz_event handle_hunting_event
    rcases hbad with ⟨hne1, hne2⟩ | ⟨hj, hfield⟩ | ⟨hh, f, hfeq, hfnone⟩
    · rw [if_neg (by simpa using hne1), if_neg (by simpa using hne2)]
    · rw [if_pos (by simpa using hj)]
      rcases hfield with hnone | ⟨f, hfeq, hfnone⟩
      · simp [hnone]
      · simp [hfeq, hfnone]
    · have hnej : ¬(({ o with wait_weeks := 0 } : Order).event_type =
          some "juiz") := by simp [hh]
      rw [if_neg hnej, if_pos (by simpa using hh)]
      simp [hfeq, hfnone, set_of_invalid]
  have h2 : matureStep inv o = .ok (inv, tickOrder o) := by
    unfold matureStep
    rw [if_pos (show (0:ℤ) ≤ o.wait_weeks by rw [hw]; norm_num)]
    rw [ht]
    have hw0 : ({ o with wait_weeks := 0 } : Order).wait_weeks = 0 := rfl
    rw [if_pos hw0]
    have hie' : ({ o with wait_weeks := 0 } : Order).is_effect = true := hie
    rw [if_pos hie']
    rw [← ht, h1]
    simp [Except.map]
  exact ⟨h1, matureAll_cons inv o rest inv (tickOrder o) h2⟩

/-- C6 counterexample: a hunt-delivery Pending Effect whose target field
is NULL makes the weekly tick raise (Python `getattr(inventory, None,
0)` is a `TypeError`); the driver does not drop it with a warning and
does not continue. -/
theorem hunt_missing_target_raises_cex :
    advance_one_week initialize_inventory [huntNoTarget] =
      .error "TypeError: attribute name must be string" := by
  simp [advance_one_week, matureAll, matureStep, tickOrder,
    apply_event_effect, handle_hunting_event, huntNoTarget,
    resetRenewables, initialize_inventory, Except.map]

theorem maturation_drop_semantics_witness :
    apply_event_effect (tickOrder unknownEventOrder) initialize_inventory =
      .ok initialize_inventory ∧
    matureAll initialize_inventory [unknownEventOrder] =
      (matureAll initialize_inventory []).map
        (fun p => (p.1, tickOrder unknownEventOrder :: p.2)) :=
  maturation_drop_semantics initialize_inventory unknownEventOrder [] rfl rfl
    (Or.inl ⟨by simp [unknownEventOrder], by simp [unknownEventOrder]⟩)

@[simp] theorem tickOrder_article (o : Order) :
    (tickOrder o).article = o.article := by
  unfold tickOrder; split_ifs <;> rfl

@[simp] theorem tickOrder_is_effect (o : Order) :
    (tickOrder o).is_effect = o.is_effect := by
  unfold tickOrder; split_ifs <;> rfl

@[simp] theorem tickOrder_inventory_field (o : Order) :
    (tickOrder o).inventory_field = o.inventory_field := by
  unfold tickOrder; split_ifs <;> rfl

@[simp] theorem tickOrder_event_type (o : Order) :
    (tickOrder o).event_type = o.event_type := by
  unfold tickOrder; split_ifs <;> rfl

theorem creditsRiskAgree_rfl (a : Inventory) : creditsRiskAgree a a :=
  ⟨rfl, rfl, rfl, rfl, rfl⟩

theorem creditsRiskAgree_trans {a b c : Inventory}
    (h1 : creditsRiskAgree a b) (h2 : creditsRiskAgree b c) :
    creditsRiskAgree a c :=
  ⟨h2.1.trans h1.1, h2.2.1.trans h1.2.1, h2.2.2.1.trans h1.2.2.1,
    h2.2.2.2.1.trans h1.2.2.2.1, h2.2.2.2.2.trans h1.2.2.2.2⟩

theorem matureStep_systemOrder (o : Order) (hgood : systemOrder o)
    (inv : Inventory) :
    ∃ inv', matureStep inv o = .ok (inv', tickOrder o) ∧
      creditsRiskAgree inv inv' := by
  unfold matureStep
  by_cases hw : (0:ℤ) ≤ o.wait_weeks
  · rw [if_pos hw]
    by_cases h0 : (tickOrder o).wait_weeks = 0
    · rw [if_pos h0]
      unfold systemOrder at hgood
      cases hie : o.is_effect
      · rw [if_neg (by simp [hie])]
        refine ⟨apply_order_effect (tickOrder o) inv, rfl, ?_⟩
        rw [hie] at hgood
        simp only [Bool.false_eq_true, if_false] at hgood
        unfold apply_order_effect
        rw [tickOrder_article]
        simp only [article_values, List.mem_cons, List.not_mem_nil,
          or_false] at hgood
        rcases hgood with h | h | h | h | h | h | h | h | h <;>
          rw [h] <;> simp [creditsRiskAgree]
      · rw [if_pos (by simp [hie])]
        rw [hie] at hgood
        simp only [if_true] at hgood
        rcases hgood with ⟨hj, f, hfmem, hfeq⟩ | ⟨hh, f, hfmem, hfeq⟩
        · have he : apply_event_effect (tickOrder o) inv =
              .ok (handle_juiz_event (tickOrder o) inv) := by
            unfold apply_event_effect
            rw [if_pos (by simp [hj])]
          rw [he]
          refine ⟨handle_juiz_event (tickOrder o) inv,
            by simp [Except.map], ?_⟩
          unfold handle_juiz_event
          rw [tickOrder_inventory_field, hfeq]
          simp only [ta_fields, List.mem_cons, List.not_mem_nil,
            or_false] at hfmem
          rcases hfmem with rfl | rfl | rfl | rfl <;>
            simp [pyReplace_saltos_max, pyReplace_nitro_max,
              pyReplace_helene_max, pyReplace_carnival_max,
              creditsRiskAgree]
        · have he : apply_event_effect (tickOrder o) inv =
              handle_hunting_event (tickOrder o) inv := by
            unfold apply_event_effect
            rw [if_neg (by simp [hh]), if_pos (by simp [hh])]
          have hv : handle_hunting_event (tickOrder o) inv =
              .ok (inv.set f ((inv.get? f).getD 0 +
                (pyTrunc (tickOrder o).value : ℚ))) := by
            unfold handle_hunting_event
            rw [tickOrder_inventory_field, hfeq]
          rw [he, hv]
          refine ⟨inv.set f ((inv.get? f).getD 0 +
            (pyTrunc (tickOrder o).value : ℚ)), by simp [Except.map], ?_⟩
          simp only [animal_available_fields, List.mem_cons,
            List.not_mem_nil, or_false] at hfmem
          rcases hfmem with rfl | rfl | rfl | rfl <;>
            simp [creditsRiskAgree]
    · rw [if_neg h0]
      exact ⟨inv, rfl, creditsRiskAgree_rfl inv⟩
  · rw [if_neg hw]
    have ht : tickOrder o = o := by
      unfold tickOrder; rw [if_neg hw]
    rw [ht]
    exact ⟨inv, rfl, creditsRiskAgree_rfl inv⟩

theorem matureAll_systemOrders (orders : List Order) :
    (∀ o ∈ orders, systemOrder o) → ∀ inv, ∃ inv' orders',
      matureAll inv orders = .ok (inv', orders') ∧
      creditsRiskAgree inv inv' := by
  induction orders with
  | nil => exact fun _ inv => ⟨inv, [], rfl, creditsRiskAgree_rfl inv⟩
  | cons o rest ih =>
    intro h inv
    obtain ⟨inv1, hstep, hag1⟩ := matureStep_systemOrder o (h o (by simp)) inv
    obtain ⟨inv2, rest', hall, hag2⟩ :=
      ih (fun x hx => h x (by simp [hx])) inv1
    refine ⟨inv2, tickOrder o :: rest', ?_, creditsRiskAgree_trans hag1 hag2⟩
    rw [matureAll_cons inv o rest inv1 (tickOrder o) hstep, hall]
    simp [Except.map]

/-- C10 (amended): for every queue whose entries have the shape the
engine itself creates (plain deliveries carrying an `ArticleEnum`
article, boost-aftermath events targeting a TA shift field, hunt
deliveries targeting a species availability field), the weekly tick
succeeds and leaves `credits` and all four `risk` fields unchanged.  A
crafted queue entry CAN write credits or risk (see the
counterexample). -/
theorem advance_preserves_credits_risk (inv : Inventory)
    (orders : List Order) (hgood : ∀ o ∈ orders, systemOrder o) :
    ∃ inv' orders', advance_one_week inv orders = .ok (inv', orders') ∧
      creditsRiskAgree inv inv' := by
  obtain ⟨inv1, orders', hall, hag⟩ :=
    matureAll_systemOrders orders hgood (resetRenewables inv)
  refine ⟨rederiveCeilings inv1, orders', ?_, ?_⟩
  · unfold advance_one_week
    rw [hall]
  · have h1 : creditsRiskAgree inv (resetRenewables inv) := by
      simp [creditsRiskAgree, resetRenewables]
    have h2 : creditsRiskAgree inv1 (rederiveCeilings inv1) := by
      simp [creditsRiskAgree, rederiveCeilings]
    exact creditsRiskAgree_trans (creditsRiskAgree_trans h1 hag) h2

/-- C10 counterexample: a hunt-delivery Pending Effect whose
`inventory_field` is the string "credits" makes the weekly tick add its
value to the credits column: the driver CAN modify credits for a
crafted queue. -/
theorem hunt_event_writes_credits_cex :
    (advance_one_week initialize_inventory [huntCreditsOrder]).map
        (fun p => p.1.credits) = .ok 2000005 ∧
    initialize_inventory.credits = 2000000 := by
  constructor
  · simp [advance_one_week, matureAll, matureStep, tickOrder,
      apply_event_effect, handle_hunting_event, huntCreditsOrder,
      resetRenewables, rederiveCeilings, initialize_inventory, pyTrunc,
      Except.map]
    norm_num
  · rfl

theorem advance_preserves_credits_risk_witness :
    (∀ o ∈ [scenC_order], systemOrder o) ∧
      ∃ inv' orders',
        advance_one_week initialize_inventory [scenC_order] =
            .ok (inv', orders') ∧
          creditsRiskAgree initialize_inventory inv' :=
  ⟨by simp [systemOrder, scenC_order, ta_fields],
    advance_preserves_credits_risk initialize_inventory [scenC_order]
      (by simp [systemOrder, scenC_order, ta_fields])⟩
